import Mathlib

/-!
# Verification of `migrate_database.py`

A shallow embedding of the PostgreSQL migration CLI (`migrate_database.py`).

The logic the program itself contains is pure control flow around external effects
(`psycopg2.connect`, `subprocess.run`, `datetime.now`, `os.path.getsize`,
SQL queries).  Those effects are modelled by an oracle (`World`) that fixes
the outcome of every external interaction, and each function of the source
is translated into a Lean function that returns its Python return value
together with the list of observable events (`Ev`) it performs, in order.

The only library function whose behaviour matters to the control flow is
`urllib.parse.urlparse` (with the derived `hostname`/`port`/`username`/
`password` accessors), so it is embedded as well, following the CPython
file `urllib/parse.py`.  Scope notes for that embedding are next to the
definitions.
-/

namespace MigrateDb

/-! ## Python string primitives (on `List Char`) -/

/-- Python `s.partition(c)` restricted to the found case: split at the FIRST
occurrence of `c`, returning the parts before and after it; `none` when `c`
does not occur. -/
def partitionList (c : Char) : List Char → Option (List Char × List Char)
  | [] => none
  | x :: xs =>
      if x = c then some ([], xs)
      else (partitionList c xs).map (fun p => (x :: p.1, p.2))

/-- Python `s.rpartition(c)`, found case: split at the LAST occurrence of `c`. -/
def rpartitionList (c : Char) (l : List Char) : Option (List Char × List Char) :=
  (partitionList c l.reverse).map (fun p => (p.2.reverse, p.1.reverse))

/-- Python `s.split(c, 1)`: split at the first occurrence of `c` when present;
otherwise the whole string with an empty second part. -/
def splitOnce (c : Char) (l : List Char) : List Char × List Char :=
  match partitionList c l with
  | some (a, b) => (a, b)
  | none => (l, [])

/-- ASCII whitespace, as stripped by the Python `int(...)` conversion. -/
def isPySpace (c : Char) : Bool :=
  c = ' ' || c = '\t' || c = '\n' || c = '\x0b' || c = '\x0c' || c = '\r'

/-- The decimal value of a digit list, most significant first. -/
def natOfDigits (ds : List Char) : Nat :=
  ds.foldl (fun a c => a * 10 + (c.toNat - 48)) 0

/-- Python `int(s, 10)` on the strings reaching it here: optional
surrounding ASCII whitespace, an optional sign, then decimal digits.
(Digit-grouping underscores and non-ASCII digits are not modelled.) -/
def pyIntOfChars (l : List Char) : Option Int :=
  let t := ((l.dropWhile isPySpace).reverse.dropWhile isPySpace).reverse
  match t with
  | '-' :: ds =>
      if !ds.isEmpty && ds.all Char.isDigit then some (-(natOfDigits ds : Int)) else none
  | '+' :: ds =>
      if !ds.isEmpty && ds.all Char.isDigit then some ((natOfDigits ds : Int)) else none
  | ds =>
      if !ds.isEmpty && ds.all Char.isDigit then some ((natOfDigits ds : Int)) else none

/-- The decimal digit characters, used to render numbers the way the Python
`str` conversion does. -/
def decDigitChar : Nat → Char
  | 0 => '0' | 1 => '1' | 2 => '2' | 3 => '3' | 4 => '4'
  | 5 => '5' | 6 => '6' | 7 => '7' | 8 => '8' | _ => '9'

/-- Fuel-based decimal rendering of a natural number (most significant digit
first), prepended to `acc`. -/
def natDecAux : Nat → Nat → List Char → List Char
  | 0, _, acc => acc
  | fuel + 1, n, acc =>
      if n < 10 then decDigitChar n :: acc
      else natDecAux fuel (n / 10) (decDigitChar (n % 10) :: acc)

/-- Python `str` of a natural number. -/
def natDecString (n : Nat) : String :=
  String.mk (natDecAux (n + 1) n [])

/-- Python `str` of an `int`. -/
def pyStr (n : Int) : String :=
  if n < 0 then "-" ++ natDecString n.natAbs else natDecString n.natAbs

/-- A single-quote character, used by Python `repr` of a string. -/
def sq : String := String.mk [Char.ofNat 39]

/-- Python truthiness of an optional string (`None` and `""` are falsy). -/
def pyFalsy : Option String → Bool
  | none => true
  | some s => s == ""

/-- Rendering of an optional string inside an f-string (`None` prints as
`None`). -/
def optStr : Option String → String
  | none => "None"
  | some s => s

/-! ## `urllib.parse` model

Follows CPython `urllib/parse.py` (`urlsplit`, `urlparse` and the
`username` / `password` / `hostname` / `port` accessors of the result).
Not modelled, as out of scope for the inputs of this program: validation of
bracketed IPv6 / IPvFuture hosts when both brackets are present, the NFKC
netloc check (it can only fire on non-ASCII netlocs), and non-ASCII case
mapping in `str.lower`. -/

inductive PyErr where
  | valueError (msg : String)
deriving DecidableEq, Repr

structure SplitResult where
  scheme : String
  netloc : String
  path : String
  query : String
  fragment : String
deriving DecidableEq, Repr

structure ParseResult where
  scheme : String
  netloc : String
  path : String
  params : String
  query : String
  fragment : String
deriving DecidableEq, Repr

/-- Characters allowed in a URL scheme after the first (alphabetic) one. -/
def isSchemeChar (c : Char) : Bool :=
  c.isAlphanum || c = '+' || c = '-' || c = '.'

/-- The scheme-extraction step of `urlsplit`: if the text before the first
`:` is a well-formed scheme, split it off (lowercased); otherwise leave the
URL unchanged with an empty scheme. -/
def schemeSplit (u : List Char) : List Char × List Char :=
  match partitionList ':' u with
  | some (c :: cs, after) =>
      if c.isAlpha && (c :: cs).all isSchemeChar
      then ((c :: cs).map Char.toLower, after)
      else ([], u)
  | _ => ([], u)

/-- A character that does not end the netloc. -/
def netlocChar (c : Char) : Bool :=
  !(c = '/' || c = '?' || c = '#')

/-- CPython `urlsplit` (with `allow_fragments=True`): strip leading
C0-control-or-space, remove tab/CR/LF, split off scheme, netloc (after
`//`, up to `/?#`, with the mismatched-bracket `ValueError`), fragment and
query. -/
def pyUrlsplit (url : String) : Except PyErr SplitResult :=
  let u1 := (url.data.dropWhile (fun c => c.toNat ≤ 32)).filter
      (fun c => !(c = '\t' || c = '\n' || c = '\r'))
  let sr := schemeSplit u1
  let nr :=
    if sr.2.take 2 = ['/', '/'] then
      ((sr.2.drop 2).takeWhile netlocChar, (sr.2.drop 2).dropWhile netlocChar)
    else ([], sr.2)
  if (nr.1.contains '[' && !(nr.1.contains ']')) ||
     (nr.1.contains ']' && !(nr.1.contains '[')) then
    Except.error (PyErr.valueError "Invalid IPv6 URL")
  else
    let fr := splitOnce '#' nr.2
    let pq := splitOnce '?' fr.1
    Except.ok ⟨String.mk sr.1, String.mk nr.1, String.mk pq.1, String.mk pq.2,
               String.mk fr.2⟩

/-- Schemes for which `urlparse` splits `;params` off the path. -/
def usesParams : List String :=
  ["", "ftp", "hdl", "prospero", "http", "imap", "https", "shttp", "rtsp",
   "rtspu", "sip", "sips", "mms", "sftp", "tel"]

/-- CPython `_splitparams`: split `;params` from the last path segment. -/
def splitParams (url : List Char) : List Char × List Char :=
  if url.contains '/' then
    match rpartitionList '/' url with
    | some (before, after) =>
        match partitionList ';' after with
        | some (a, b) => (before ++ '/' :: a, b)
        | none => (url, [])
    | none => (url, [])
  else
    match partitionList ';' url with
    | some (a, b) => (a, b)
    | none => (url, [])

/-- CPython `urlparse`: `urlsplit` plus params splitting for the schemes in
`usesParams`. -/
def pyUrlparse (url : String) : Except PyErr ParseResult :=
  match pyUrlsplit url with
  | .error e => .error e
  | .ok s =>
      let pp :=
        if usesParams.contains s.scheme && s.path.data.contains ';'
        then splitParams s.path.data
        else (s.path.data, [])
      .ok ⟨s.scheme, s.netloc, String.mk pp.1, String.mk pp.2, s.query, s.fragment⟩

/-- CPython `_userinfo`: username and password from the netloc (`none` =
Python `None`; an empty username before `@` is the empty string, not
`None`). -/
def pyUserinfo (netloc : String) : Option String × Option String :=
  match rpartitionList '@' netloc.data with
  | some (userinfo, _) =>
      match partitionList ':' userinfo with
      | some (u, p) => (some (String.mk u), some (String.mk p))
      | none => (some (String.mk userinfo), none)
  | none => (none, none)

/-- CPython `_hostinfo`: raw hostname text and optional raw port text from
the netloc. -/
def pyHostinfo (netloc : String) : List Char × Option (List Char) :=
  let hostinfo :=
    match rpartitionList '@' netloc.data with
    | some (_, h) => h
    | none => netloc.data
  match partitionList '[' hostinfo with
  | some (_, bracketed) =>
      let hr := splitOnce ']' bracketed
      let port := (splitOnce ':' hr.2).2
      (hr.1, if port.isEmpty then none else some port)
  | none =>
      match partitionList ':' hostinfo with
      | some (h, p) => (h, if p.isEmpty then none else some p)
      | none => (hostinfo, none)

/-- CPython `hostname` accessor: lowercased hostname, `None` when empty. -/
def pyHostname (netloc : String) : Option String :=
  let h := (pyHostinfo netloc).1
  if h.isEmpty then none else some (String.mk (h.map Char.toLower))

/-- CPython `port` accessor: parses the raw port as a decimal integer,
raising `ValueError` when it is not an integer or out of `0..65535`. -/
def pyPort (netloc : String) : Except PyErr (Option Int) :=
  match (pyHostinfo netloc).2 with
  | none => .ok none
  | some p =>
      match pyIntOfChars p with
      | none =>
          .error (.valueError
            ("Port could not be cast to integer value as " ++ sq ++ String.mk p ++ sq))
      | some n =>
          if 0 ≤ n && n ≤ 65535 then .ok (some n)
          else .error (.valueError "Port out of range 0-65535")

/-- Python `x or d` on the parsed port (`None` and `0` are falsy). -/
def pyOr (p : Option Int) (d : Int) : Int :=
  match p with
  | none => d
  | some n => if n = 0 then d else n

/-! ## The connection descriptors of the source -/

/-- The dict built by `parse_database_url` (field types as the source
produces them: `hostname`/`username`/`password` may be Python `None`,
`port` is always a string, `database` is always a string). -/
structure UrlConfig where
  host : Option String
  port : String
  database : String
  username : Option String
  password : Option String
deriving DecidableEq, Repr

/-- Method `DatabaseMigrator.parse_database_url` (lines 113-122): `urlparse` the
URL and build the config dict; an uncaught `ValueError` from `urlparse` or
from the `port` accessor propagates. -/
def parse_database_url (database_url : String) : Except PyErr UrlConfig :=
  match pyUrlparse database_url with
  | .error e => .error e
  | .ok parsed =>
      match pyPort parsed.netloc with
      | .error e => .error e
      | .ok port =>
          .ok { host := pyHostname parsed.netloc,
                port := pyStr (pyOr port 5432),
                database := String.mk (parsed.path.data.dropWhile (· = '/')),
                username := (pyUserinfo parsed.netloc).1,
                password := (pyUserinfo parsed.netloc).2 }

/-! ## Effects

The observable events a run performs, in order.  `unlink` (file deletion)
is in the vocabulary so that frame properties can be stated; the source
never deletes a file, so no function below emits it. -/

/-- The keyword fields `psycopg2.connect` is called with. -/
structure ConnFields where
  host : Option String
  port : Option String
  database : Option String
  username : Option String
  password : Option String
deriving DecidableEq, Repr

/-- Outcome of `subprocess.run`: the process ran and exited (with its
captured stderr), or the binary was absent (`FileNotFoundError`). -/
inductive ProcResult where
  | exit (returncode : Int) (stderr : String)
  | notFound
deriving DecidableEq, Repr

inductive Ev where
  | print (line : String)
  | connect (c : ConnFields)
  | proc (argv : List (Option String)) (pgpassword : Option String)
  | query (sql : String)
  | getsize (path : String)
  | unlink (path : String)
deriving DecidableEq, Repr

/-- Result of `datetime.now()` at the resolution the program formats (seconds). -/
structure PyDateTime where
  year : Nat
  month : Nat
  day : Nat
  hour : Nat
  minute : Nat
  second : Nat
deriving DecidableEq, Repr

/-- The invariants `datetime` guarantees for `datetime.now()`. -/
def PyDateTime.valid (t : PyDateTime) : Prop :=
  1 ≤ t.year ∧ t.year ≤ 9999 ∧ 1 ≤ t.month ∧ t.month ≤ 12 ∧
  1 ≤ t.day ∧ t.day ≤ 31 ∧ t.hour ≤ 23 ∧ t.minute ≤ 59 ∧ t.second ≤ 59

/-- Zero-pad the decimal rendering of `n` to width `w` (as `strftime`
does; wider numbers are kept whole). -/
def padZ (w : Nat) (n : Nat) : String :=
  String.mk (List.replicate (w - (natDecString n).data.length) '0' ++ (natDecString n).data)

/-- Result of `datetime.now().strftime("%Y%m%d_%H%M%S")` (line 50). -/
def strftimeTs (t : PyDateTime) : String :=
  padZ 4 t.year ++ padZ 2 t.month ++ padZ 2 t.day ++ "_" ++
  padZ 2 t.hour ++ padZ 2 t.minute ++ padZ 2 t.second

/-- The oracle fixing every external outcome of one run: environment
variables, connection attempts (`none` = success, `some msg` = the raised
message of the raised exception), subprocess outcomes by argv, the clock, file sizes,
the rendering of the backup-size f-string (floating point, not modelled
arithmetically), and the three diagnostic query results (`Except` carries
the exception message; the row-sum query may return SQL `NULL`). -/
structure World where
  env : String → Option String
  connectErr : ConnFields → Option String
  run : List (Option String) → ProcResult
  now : PyDateTime
  getsize : String → Nat
  fmtMB : Nat → String
  sizeQuery : Except String String
  tableCountQuery : Except String Int
  rowSumQuery : Except String (Option Int)

/-! ## `DatabaseMigrator` -/

/-- Field `self.local_config` (lines 21-27): environment variables with
defaults. -/
structure LocalConfig where
  host : String
  port : String
  database : String
  username : String
  password : String
deriving DecidableEq, Repr

def localConfig (w : World) : LocalConfig :=
  { host := (w.env "DB_HOST").getD "localhost",
    port := (w.env "DB_PORT").getD "5432",
    database := (w.env "DB_NAME").getD "ecommerce",
    username := (w.env "DB_USERNAME").getD "postgres",
    password := (w.env "DB_PASSWORD").getD "postgres" }

def LocalConfig.fields (c : LocalConfig) : ConnFields :=
  ⟨some c.host, some c.port, some c.database, some c.username, some c.password⟩

def UrlConfig.fields (c : UrlConfig) : ConnFields :=
  ⟨c.host, some c.port, some c.database, c.username, c.password⟩

/-- The host:port/database description `test_connection` interpolates into
its two status lines. -/
def connDesc (c : ConnFields) : String :=
  optStr c.host ++ ":" ++ optStr c.port ++ "/" ++ optStr c.database

/-- Method `test_connection` (lines 29-45): open and close a connection, print the
outcome, return a boolean. -/
def test_connection (w : World) (c : ConnFields) : Bool × List Ev :=
  match w.connectErr c with
  | none =>
      (true, [.connect c, .print ("✅ Successfully connected to " ++ connDesc c)])
  | some e =>
      (false, [.connect c, .print ("❌ Failed to connect to " ++ connDesc c),
               .print ("Error: " ++ e)])

/-- The `pg_dump` argv of lines 59-67. -/
def dumpArgv (cfg : LocalConfig) (backup_file : String) : List (Option String) :=
  [some "pg_dump", some "-h", some cfg.host, some "-p", some cfg.port,
   some "-U", some cfg.username, some "-d", some cfg.database,
   some "-Fc", some "-f", some backup_file]

/-- Method `backup_database` (lines 47-80): synthesize the file name when none is
supplied (Python truthiness: `None` and `""` both synthesize), run
`pg_dump` with `PGPASSWORD` set, and return the file path on exit status
zero, `None` otherwise. -/
def backup_database (w : World) (cfg : LocalConfig) (backup_file? : Option String) :
    Option String × List Ev :=
  let backup_file :=
    if pyFalsy backup_file? then
      "backup_" ++ cfg.database ++ "_" ++ strftimeTs w.now ++ ".dump"
    else backup_file?.getD ""
  let ev0 := [Ev.print "🔄 Creating backup of local database..."]
  let argv := dumpArgv cfg backup_file
  match w.run argv with
  | .exit returncode stderr =>
      if returncode = 0 then
        (some backup_file,
         ev0 ++ [Ev.proc argv (some cfg.password),
                 .print ("✅ Backup created successfully: " ++ backup_file),
                 .getsize backup_file,
                 .print ("   File size: " ++ w.fmtMB (w.getsize backup_file) ++ " MB")])
      else
        (none, ev0 ++ [Ev.proc argv (some cfg.password),
                       .print ("❌ Backup failed: " ++ stderr)])
  | .notFound =>
      (none, ev0 ++ [Ev.proc argv (some cfg.password),
                     .print "❌ pg_dump not found. Please install PostgreSQL client tools."])

/-- The `pg_restore` argv of lines 90-99 (`host`/`username`/`password` may
be Python `None` when parsed from a degenerate URL). -/
def restoreArgv (cfg : UrlConfig) (backup_file : String) : List (Option String) :=
  [some "pg_restore", some "-h", cfg.host, some "-p", some cfg.port,
   some "-U", cfg.username, some "-d", some cfg.database,
   some "--clean", some "--if-exists", some backup_file]

/-- Method `restore_database` (lines 82-111): run `pg_restore`; exit status zero
is success, a non-zero exit is still `True` ("warnings are not critical"),
only a missing binary yields `False`. -/
def restore_database (w : World) (backup_file : String) (cfg : UrlConfig) :
    Bool × List Ev :=
  let ev0 := [Ev.print ("🔄 Restoring database from " ++ backup_file ++ "...")]
  let argv := restoreArgv cfg backup_file
  match w.run argv with
  | .exit returncode stderr =>
      if returncode = 0 then
        (true, ev0 ++ [Ev.proc argv cfg.password,
                       .print "✅ Database restored successfully!"])
      else
        (true, ev0 ++ [Ev.proc argv cfg.password,
                       .print ("⚠️ Restore completed with warnings: " ++ stderr)])
  | .notFound =>
      (false, ev0 ++ [Ev.proc argv cfg.password,
                      .print "❌ pg_restore not found. Please install PostgreSQL client tools."])

/-- The composite result of `get_database_info`. -/
structure DbInfo where
  size : String
  tables : Int
  rows : Int
deriving DecidableEq, Repr

def sqlSize : String :=
  "SELECT pg_size_pretty(pg_database_size(current_database()));"

def sqlTables : String :=
  "SELECT COUNT(*) FROM information_schema.tables WHERE table_schema = \x27public\x27;"

def sqlRows : String :=
  "SELECT SUM(n_tup_ins + n_tup_upd + n_tup_del) as total_rows FROM pg_stat_user_tables;"

/-- Method `get_database_info` (lines 124-166): connect, run the three diagnostic
queries in order, return the composite dict; the surrounding
`try`/`except` turns ANY failure into a printed generic message and a
`None` result (the row sum falls back to `0` when SQL returns `NULL`).
The SQL text is flattened to single lines. -/
def get_database_info (w : World) (c : ConnFields) : Option DbInfo × List Ev :=
  match w.connectErr c with
  | some e => (none, [.connect c, .print ("Error getting database info: " ++ e)])
  | none =>
      match w.sizeQuery with
      | .error e =>
          (none, [.connect c, .query sqlSize,
                  .print ("Error getting database info: " ++ e)])
      | .ok size =>
          match w.tableCountQuery with
          | .error e =>
              (none, [.connect c, .query sqlSize, .query sqlTables,
                      .print ("Error getting database info: " ++ e)])
          | .ok table_count =>
              match w.rowSumQuery with
              | .error e =>
                  (none, [.connect c, .query sqlSize, .query sqlTables, .query sqlRows,
                          .print ("Error getting database info: " ++ e)])
              | .ok r =>
                  let total_rows : Int :=
                    match r with
                    | none => 0
                    | some n => if n = 0 then 0 else n
                  (some ⟨size, table_count, total_rows⟩,
                   [.connect c, .query sqlSize, .query sqlTables, .query sqlRows])

/-! ## `main` (lines 187-273) -/

inductive Action where
  | backup | restore | migrate | info | test | deployRailway | deployHeroku
deriving DecidableEq, Repr

/-- The argparse result: the positional action plus the optional flags
(`target_port` defaults to `"5432"`; `target_host`/`target_port`/
`target_db`/`target_user`/`target_password` are parsed but never read by
`main`). -/
structure Args where
  action : Action
  backup_file : Option String
  target_url : Option String
  target_host : Option String
  target_port : String
  target_db : Option String
  target_user : Option String
  target_password : Option String
deriving DecidableEq, Repr

/-- The static text of `deploy_to_railway` (lines 168-176). -/
def railwayPrints : List Ev :=
  [.print "🚂 Deploying to Railway...",
   .print "1. Make sure Railway CLI is installed: npm install -g @railway/cli",
   .print "2. Run: railway login",
   .print "3. Run: railway init",
   .print "4. Run: railway add postgresql",
   .print "5. Get your DATABASE_URL: railway variables",
   .print "6. Use the migrate command with your Railway DATABASE_URL"]

/-- The static text of `deploy_to_heroku` (lines 178-185). -/
def herokuPrints : List Ev :=
  [.print "🟣 Deploying to Heroku...",
   .print "1. Make sure Heroku CLI is installed",
   .print "2. Run: heroku create your-app-name",
   .print "3. Run: heroku addons:create heroku-postgresql:hobby-dev",
   .print "4. Get your DATABASE_URL: heroku config:get DATABASE_URL",
   .print "5. Use the migrate command with your Heroku DATABASE_URL"]

/-- Function `main` after argument parsing: the events of the run and, when an
exception escapes (only `parse_database_url` can raise), the exception. -/
def runMain (w : World) (args : Args) : List Ev × Option PyErr :=
  match args.action with
  | .backup =>
      let b := backup_database w (localConfig w) args.backup_file
      if pyFalsy b.1 then (b.2, none)
      else
        let g := get_database_info w (localConfig w).fields
        match g.1 with
        | some i =>
            (b.2 ++ g.2 ++
             [.print ("📊 Database Info: " ++ i.size ++ ", " ++ pyStr i.tables ++
                      " tables, ~" ++ pyStr i.rows ++ " rows")], none)
        | none => (b.2 ++ g.2, none)
  | .info =>
      let t0 := [Ev.print "📊 Local Database Information:"]
      let g := get_database_info w (localConfig w).fields
      match g.1 with
      | some i =>
          (t0 ++ g.2 ++ [.print ("   Size: " ++ i.size),
                         .print ("   Tables: " ++ pyStr i.tables),
                         .print ("   Rows: ~" ++ pyStr i.rows)], none)
      | none => (t0 ++ g.2, none)
  | .test =>
      let t0 := [Ev.print "🔍 Testing local database connection..."]
      let t1 := test_connection w (localConfig w).fields
      if pyFalsy args.target_url then (t0 ++ t1.2, none)
      else
        let th := [Ev.print "🔍 Testing target database connection..."]
        match parse_database_url (args.target_url.getD "") with
        | .error e => (t0 ++ t1.2 ++ th, some e)
        | .ok tc =>
            let t2 := test_connection w tc.fields
            (t0 ++ t1.2 ++ th ++ t2.2, none)
  | .restore =>
      if pyFalsy args.backup_file || pyFalsy args.target_url then
        ([.print "❌ Both --backup-file and --target-url are required for restore"], none)
      else
        match parse_database_url (args.target_url.getD "") with
        | .error e => ([], some e)
        | .ok tc =>
            let r := restore_database w (args.backup_file.getD "") tc
            (r.2, none)
  | .migrate =>
      if pyFalsy args.target_url then
        ([.print "❌ --target-url is required for migration"], none)
      else
        let t0 := [Ev.print "🚀 Starting full database migration...",
                   Ev.print "1. Testing connections..."]
        let t1 := test_connection w (localConfig w).fields
        if !t1.1 then
          (t0 ++ t1.2 ++ [.print "❌ Cannot connect to local database"], none)
        else
          match parse_database_url (args.target_url.getD "") with
          | .error e => (t0 ++ t1.2, some e)
          | .ok tc =>
              let t2 := test_connection w tc.fields
              if !t2.1 then
                (t0 ++ t1.2 ++ t2.2 ++ [.print "❌ Cannot connect to target database"], none)
              else
                let t3h := [Ev.print "2. Creating backup..."]
                let b := backup_database w (localConfig w) none
                if pyFalsy b.1 then
                  (t0 ++ t1.2 ++ t2.2 ++ t3h ++ b.2 ++ [.print "❌ Backup failed"], none)
                else
                  let t4h := [Ev.print "3. Restoring to target..."]
                  let r := restore_database w (b.1.getD "") tc
                  if r.1 then
                    (t0 ++ t1.2 ++ t2.2 ++ t3h ++ b.2 ++ t4h ++ r.2 ++
                     [.print "✅ Migration completed successfully!",
                      .print ("🗑️ You can now delete the backup file: " ++ b.1.getD "")],
                     none)
                  else
                    (t0 ++ t1.2 ++ t2.2 ++ t3h ++ b.2 ++ t4h ++ r.2 ++
                     [.print "❌ Migration failed during restore"], none)
  | .deployRailway => (railwayPrints, none)
  | .deployHeroku => (herokuPrints, none)

/-- Recognize a `pg_dump` invocation event ("the Backup Invoker was
invoked"). -/
def Ev.isDumpProc : Ev → Bool
  | .proc argv _ => argv.head? = some (some "pg_dump")
  | _ => false

/-- The `pg_dump` invocations in a trace. -/
def dumpProcs (tr : List Ev) : List Ev :=
  tr.filter Ev.isDumpProc

/-- The `-f` arguments of the `pg_dump` invocations in a trace (the
artifact paths the Backup Invoker was asked to write). -/
def dumpFiles (tr : List Ev) : List (Option String) :=
  tr.filterMap fun e =>
    match e with
    | .proc argv _ =>
        if argv.head? = some (some "pg_dump") then some (argv.getLast?.getD none)
        else none
    | _ => none

/-! ## Supporting lemmas -/

theorem data_mk (l : List Char) : (String.mk l).data = l := rfl

theorem strData (a b : String) : (a ++ b).data = a.data ++ b.data := by
  cases a; cases b; rfl

theorem decDigitChar_isDigit (n : Nat) : (decDigitChar n).isDigit = true := by
  unfold decDigitChar
  split <;> decide

theorem natDecAux_digits :
    ∀ fuel n acc, (∀ c ∈ acc, c.isDigit = true) →
      ∀ c ∈ natDecAux fuel n acc, c.isDigit = true := by
  intro fuel
  induction fuel with
  | zero => intro n acc h c hc; exact h c hc
  | succ f ih =>
      intro n acc h c hc
      simp only [natDecAux] at hc
      split at hc
      · rcases List.mem_cons.mp hc with rfl | hc
        · exact decDigitChar_isDigit _
        · exact h _ hc
      · refine ih _ _ ?_ _ hc
        intro d hd
        rcases List.mem_cons.mp hd with rfl | hd
        · exact decDigitChar_isDigit _
        · exact h _ hd

theorem natDecAux_length_le :
    ∀ fuel n acc k, n < fuel → n < 10 ^ k → 1 ≤ k →
      (natDecAux fuel n acc).length ≤ k + acc.length := by
  intro fuel
  induction fuel with
  | zero => intro n acc k h _ _; omega
  | succ f ih =>
      intro n acc k hfuel hk hk1
      simp only [natDecAux]
      split
      · simp only [List.length_cons]; omega
      · rename_i hn
        match k, hk, hk1 with
        | 1, hk, _ =>
            exfalso
            have : (10 : Nat) ^ 1 = 10 := by norm_num
            omega
        | (k + 2), hk, _ =>
            have h1 : n / 10 < f := by
              have hlt : n / 10 < n := Nat.div_lt_self (by omega) (by omega)
              omega
            have h2 : n / 10 < 10 ^ (k + 1) := by
              refine Nat.div_lt_of_lt_mul ?_
              have hp : (10 : Nat) ^ (k + 2) = 10 ^ (k + 1) * 10 := by ring
              omega
            have := ih (n / 10) (decDigitChar (n % 10) :: acc) (k + 1) h1 h2 (by omega)
            simp only [List.length_cons] at this
            omega

theorem natDecAux_length_pos :
    ∀ fuel n acc, n < fuel → acc.length < (natDecAux fuel n acc).length := by
  intro fuel
  induction fuel with
  | zero => intro n acc h; omega
  | succ f ih =>
      intro n acc hfuel
      simp only [natDecAux]
      split
      · simp only [List.length_cons]; omega
      · rename_i hn
        have h1 : n / 10 < f := by
          have hlt : n / 10 < n := Nat.div_lt_self (by omega) (by omega)
          omega
        have := ih (n / 10) (decDigitChar (n % 10) :: acc) h1
        simp only [List.length_cons] at this
        omega

theorem padZ_length (k n : Nat) (h : n < 10 ^ k) (hk : 1 ≤ k) :
    (padZ k n).data.length = k := by
  have hle := natDecAux_length_le (n + 1) n [] k (Nat.lt_succ_self n) h hk
  simp only [List.length_nil] at hle
  simp only [padZ, natDecString, data_mk, List.length_append, List.length_replicate]
  omega

theorem padZ_digits (k n : Nat) : ∀ c ∈ (padZ k n).data, c.isDigit = true := by
  intro c hc
  simp only [padZ, natDecString, data_mk, List.mem_append] at hc
  rcases hc with hc | hc
  · rcases List.eq_of_mem_replicate hc with rfl
    decide
  · exact natDecAux_digits _ _ [] (by intro d hd; cases hd) _ hc

/-- The shape the spec calls `YYYYMMDD_HHMMSS`: eight digits, an
underscore, six digits. -/
def TimestampShaped (ts : String) : Prop :=
  ∃ ymd hms : List Char,
    ts.data = ymd ++ '_' :: hms ∧ ymd.length = 8 ∧ hms.length = 6 ∧
    (∀ c ∈ ymd, c.isDigit = true) ∧ (∀ c ∈ hms, c.isDigit = true)

theorem strftimeTs_shaped (t : PyDateTime) (h : t.valid) :
    TimestampShaped (strftimeTs t) := by
  obtain ⟨h1, h2, h3, h4, h5, h6, h7, h8, h9⟩ := h
  have hy : t.year < 10 ^ 4 := by norm_num; omega
  have hmo : t.month < 10 ^ 2 := by norm_num; omega
  have hd : t.day < 10 ^ 2 := by norm_num; omega
  have hh : t.hour < 10 ^ 2 := by norm_num; omega
  have hmi : t.minute < 10 ^ 2 := by norm_num; omega
  have hs : t.second < 10 ^ 2 := by norm_num; omega
  refine ⟨(padZ 4 t.year).data ++ (padZ 2 t.month).data ++ (padZ 2 t.day).data,
          (padZ 2 t.hour).data ++ (padZ 2 t.minute).data ++ (padZ 2 t.second).data,
          ?_, ?_, ?_, ?_, ?_⟩
  · simp only [strftimeTs, strData, List.append_assoc]
    rfl
  · simp only [List.length_append,
      padZ_length 4 t.year hy (by omega), padZ_length 2 t.month hmo (by omega),
      padZ_length 2 t.day hd (by omega)]
  · simp only [List.length_append,
      padZ_length 2 t.hour hh (by omega), padZ_length 2 t.minute hmi (by omega),
      padZ_length 2 t.second hs (by omega)]
  · intro c hc
    rcases List.mem_append.mp hc with hc | hc
    · rcases List.mem_append.mp hc with hc | hc
      · exact padZ_digits _ _ _ hc
      · exact padZ_digits _ _ _ hc
    · exact padZ_digits _ _ _ hc
  · intro c hc
    rcases List.mem_append.mp hc with hc | hc
    · rcases List.mem_append.mp hc with hc | hc
      · exact padZ_digits _ _ _ hc
      · exact padZ_digits _ _ _ hc
    · exact padZ_digits _ _ _ hc

theorem getLast?_cons_cons (a b : α) (l : List α) :
    (a :: b :: l).getLast? = (b :: l).getLast? := rfl

theorem getLast?_singleton (a : α) : ([a] : List α).getLast? = some a := rfl

theorem no_unlink_test (w : World) (c : ConnFields) (f : String) :
    Ev.unlink f ∉ (test_connection w c).2 := by
  unfold test_connection
  split <;> simp

theorem no_unlink_backup (w : World) (cfg : LocalConfig) (b : Option String)
    (f : String) : Ev.unlink f ∉ (backup_database w cfg b).2 := by
  unfold backup_database
  dsimp only
  split <;> (try split) <;> simp

theorem no_unlink_restore (w : World) (bf : String) (tc : UrlConfig) (f : String) :
    Ev.unlink f ∉ (restore_database w bf tc).2 := by
  unfold restore_database
  dsimp only
  split <;> (try split) <;> simp

theorem no_unlink_info (w : World) (c : ConnFields) (f : String) :
    Ev.unlink f ∉ (get_database_info w c).2 := by
  unfold get_database_info
  split
  · simp
  · split
    · simp
    · split
      · simp
      · split <;> simp

theorem dumpProcs_test (w : World) (c : ConnFields) :
    dumpProcs (test_connection w c).2 = [] := by
  unfold test_connection
  split <;> simp [dumpProcs, Ev.isDumpProc]

theorem dumpProcs_restore (w : World) (bf : String) (tc : UrlConfig) :
    dumpProcs (restore_database w bf tc).2 = [] := by
  unfold restore_database
  dsimp only
  split <;> (try split) <;> simp [dumpProcs, Ev.isDumpProc, restoreArgv]

/-! ## Witness fixtures: concrete oracles and arguments -/

def tcEx : UrlConfig := ⟨some "h", "1234", "dbname", some "u", some "p"⟩

def baseW : World :=
  { env := fun _ => none,
    connectErr := fun _ => none,
    run := fun _ => .exit 0 "",
    now := ⟨2024, 1, 2, 3, 4, 5⟩,
    getsize := fun _ => 0,
    fmtMB := fun _ => "0.00",
    sizeQuery := .ok "8553 kB",
    tableCountQuery := .ok 3,
    rowSumQuery := .ok (some 0) }

def wNotFound : World := { baseW with run := fun _ => .notFound }

def wRunFails : World := { baseW with run := fun _ => .exit 1 "fatal: boom" }

def wConnFails : World := { baseW with connectErr := fun _ => some "connection refused" }

def wQueryFails : World := { baseW with tableCountQuery := .error "permission denied" }

/-! ## The claims -/

/-- Claim C2: for every restore invocation where the external restore
binary exists (the process runs and exits, with status zero or not),
`restore_database` reports success (`True`); it reports hard failure
(`False`) exactly when the binary is absent (`FileNotFoundError`). -/
theorem c2_restore_lenient_success (w : World) (f : String) (tc : UrlConfig) :
    (∀ c s, w.run (restoreArgv tc f) = .exit c s → (restore_database w f tc).1 = true) ∧
    (w.run (restoreArgv tc f) = .notFound → (restore_database w f tc).1 = false) := by
  constructor
  · intro c s h
    simp only [restore_database, h]
    split <;> rfl
  · intro h
    simp only [restore_database, h]

theorem c2_restore_lenient_success_witness :
    (restore_database baseW "b.dump" tcEx).1 = true ∧
    (restore_database wRunFails "b.dump" tcEx).1 = true ∧
    (restore_database wNotFound "b.dump" tcEx).1 = false :=
  ⟨(c2_restore_lenient_success baseW "b.dump" tcEx).1 0 "" rfl,
   (c2_restore_lenient_success wRunFails "b.dump" tcEx).1 1 "fatal: boom" rfl,
   (c2_restore_lenient_success wNotFound "b.dump" tcEx).2 rfl⟩

/-- Claim C5: for every backup invocation (with the file path `file` the
source computes on line 49-51), a zero exit status returns the artifact
path; a non-zero exit prints the captured stderr and returns `None`; a
missing `pg_dump` binary prints the distinct tool-not-installed message
and returns `None`. -/
theorem c5_backup_outcomes (w : World) (cfg : LocalConfig) (bf? : Option String)
    (file : String)
    (hf : (if pyFalsy bf? then
             "backup_" ++ cfg.database ++ "_" ++ strftimeTs w.now ++ ".dump"
           else bf?.getD "") = file) :
    (∀ s, w.run (dumpArgv cfg file) = .exit 0 s →
        (backup_database w cfg bf?).1 = some file) ∧
    (∀ c s, w.run (dumpArgv cfg file) = .exit c s → c ≠ 0 →
        (backup_database w cfg bf?).1 = none ∧
        Ev.print ("❌ Backup failed: " ++ s) ∈ (backup_database w cfg bf?).2) ∧
    (w.run (dumpArgv cfg file) = .notFound →
        (backup_database w cfg bf?).1 = none ∧
        Ev.print "❌ pg_dump not found. Please install PostgreSQL client tools." ∈
          (backup_database w cfg bf?).2) := by
  subst hf
  refine ⟨?_, ?_, ?_⟩
  · intro s h
    simp [backup_database, h]
  · intro c s h hc
    simp [backup_database, h, hc]
  · intro h
    simp [backup_database, h]

theorem c5_backup_outcomes_witness :
    (backup_database baseW (localConfig baseW) none).1 =
      some "backup_ecommerce_20240102_030405.dump" ∧
    ((backup_database wRunFails (localConfig wRunFails) none).1 = none ∧
      Ev.print ("❌ Backup failed: " ++ "fatal: boom") ∈
        (backup_database wRunFails (localConfig wRunFails) none).2) ∧
    ((backup_database wNotFound (localConfig wNotFound) none).1 = none ∧
      Ev.print "❌ pg_dump not found. Please install PostgreSQL client tools." ∈
        (backup_database wNotFound (localConfig wNotFound) none).2) :=
  ⟨(c5_backup_outcomes baseW (localConfig baseW) none _ rfl).1 "" rfl,
   (c5_backup_outcomes wRunFails (localConfig wRunFails) none _ rfl).2.1 1 "fatal: boom"
     rfl (by decide),
   (c5_backup_outcomes wNotFound (localConfig wNotFound) none _ rfl).2.2 rfl⟩

/-- Claim C6: with no file path supplied, the Backup Invoker synthesizes
the `pg_dump` destination as `backup_<dbname>_<YYYYMMDD_HHMMSS>.dump`
(from the database name and the wall clock at second resolution), so two
invocations with the same database name in the same second synthesize the
same path. -/
theorem c6_backup_name_synthesis (w w2 : World) (cfg cfg2 : LocalConfig)
    (hdb : cfg.database = cfg2.database) (hnow : w.now = w2.now)
    (hv : w.now.valid) :
    dumpFiles (backup_database w cfg none).2 =
      [some ("backup_" ++ cfg.database ++ "_" ++ strftimeTs w.now ++ ".dump")] ∧
    TimestampShaped (strftimeTs w.now) ∧
    dumpFiles (backup_database w cfg none).2 =
      dumpFiles (backup_database w2 cfg2 none).2 := by
  have key : ∀ (w3 : World) (cfg3 : LocalConfig),
      dumpFiles (backup_database w3 cfg3 none).2 =
        [some ("backup_" ++ cfg3.database ++ "_" ++ strftimeTs w3.now ++ ".dump")] := by
    intro w3 cfg3
    unfold backup_database
    simp only [pyFalsy, reduceIte]
    split <;> (try split) <;>
      simp [dumpFiles, dumpArgv, getLast?_cons_cons, getLast?_singleton]
  refine ⟨key w cfg, strftimeTs_shaped _ hv, ?_⟩
  rw [key w cfg, key w2 cfg2, hdb, hnow]

theorem c6_backup_name_synthesis_witness :
    dumpFiles (backup_database baseW (localConfig baseW) none).2 =
      [some ("backup_" ++ (localConfig baseW).database ++ "_" ++
             strftimeTs baseW.now ++ ".dump")] ∧
    TimestampShaped (strftimeTs baseW.now) ∧
    dumpFiles (backup_database baseW (localConfig baseW) none).2 =
      dumpFiles (backup_database wNotFound (localConfig wNotFound) none).2 :=
  c6_backup_name_synthesis baseW wNotFound (localConfig baseW) (localConfig wNotFound)
    rfl rfl (by refine ⟨?_, ?_, ?_, ?_, ?_, ?_, ?_, ?_, ?_⟩ <;> decide)

/-- Claim C9: if the connection succeeds but any of the three diagnostic
queries fails, `get_database_info` returns `None` and prints the generic
error message (the whole report is aborted); and every returned report is
total: each of its three fields comes from a successful query, so a
partial result is impossible. -/
theorem c9_info_all_or_nothing (w : World) (c : ConnFields)
    (hc : w.connectErr c = none) :
    (((∃ e, w.sizeQuery = .error e) ∨ (∃ e, w.tableCountQuery = .error e) ∨
      (∃ e, w.rowSumQuery = .error e)) →
      (get_database_info w c).1 = none ∧
      ∃ m, Ev.print ("Error getting database info: " ++ m) ∈ (get_database_info w c).2) ∧
    (∀ i, (get_database_info w c).1 = some i →
      w.sizeQuery = .ok i.size ∧ w.tableCountQuery = .ok i.tables ∧
      ∃ r, w.rowSumQuery = .ok r) := by
  rcases hs : w.sizeQuery with es | vs <;>
    rcases ht : w.tableCountQuery with et | vt <;>
    rcases hr : w.rowSumQuery with er | vr <;>
    constructor <;>
    simp_all [get_database_info]

theorem c9_info_all_or_nothing_witness :
    ((get_database_info wQueryFails (localConfig wQueryFails).fields).1 = none ∧
      ∃ m, Ev.print ("Error getting database info: " ++ m) ∈
        (get_database_info wQueryFails (localConfig wQueryFails).fields).2) ∧
    (baseW.sizeQuery = .ok "8553 kB" ∧ baseW.tableCountQuery = .ok 3 ∧
      ∃ r, baseW.rowSumQuery = .ok r) :=
  ⟨(c9_info_all_or_nothing wQueryFails (localConfig wQueryFails).fields rfl).1
     (Or.inr (Or.inl ⟨"permission denied", rfl⟩)),
   (c9_info_all_or_nothing baseW (localConfig baseW).fields rfl).2 ⟨"8553 kB", 3, 0⟩ rfl⟩

/-- Claim C3: parsing `postgresql://u:p@h:1234/dbname` yields the
descriptor with host `h`, port `"1234"`, database `dbname`, username `u`
and password `p`; for every URL whose port component is omitted the resulting
port of the resulting descriptor is `"5432"`; and a leading path separator is stripped to
yield the bare database name. -/
theorem c3_parse_url (s : String) (pr : ParseResult) :
    parse_database_url "postgresql://u:p@h:1234/dbname" =
      .ok ⟨some "h", "1234", "dbname", some "u", some "p"⟩ ∧
    (pyUrlparse s = .ok pr → (pyHostinfo pr.netloc).2 = none →
      ∃ r, parse_database_url s = .ok r ∧ r.port = "5432") ∧
    (∀ name r, pyUrlparse s = .ok pr → pr.path = String.mk ('/' :: name) →
      name.head? ≠ some '/' → parse_database_url s = .ok r →
      r.database = String.mk name) := by
  refine ⟨rfl, ?_, ?_⟩
  · intro hok hport
    simp only [parse_database_url, hok, pyPort, hport]
    exact ⟨_, rfl, rfl⟩
  · intro name r hok hpath hhead hr
    simp only [parse_database_url, hok] at hr
    rcases hp : pyPort pr.netloc with e | p
    · rw [hp] at hr; cases hr
    · rw [hp] at hr
      cases hr
      simp only [hpath, data_mk]
      congr 1
      cases name with
      | nil => simp [List.dropWhile]
      | cons c t =>
          have hc : ¬ c = '/' := by simpa using hhead
          simp [List.dropWhile, hc]

theorem c3_parse_url_witness :
    (∃ r, parse_database_url "postgresql://u:p@h/dbname" = .ok r ∧ r.port = "5432") ∧
    (⟨some "h", "5432", "dbname", some "u", some "p"⟩ : UrlConfig).database =
      String.mk "dbname".data :=
  ⟨(c3_parse_url "postgresql://u:p@h/dbname"
      ⟨"postgresql", "u:p@h", "/dbname", "", "", ""⟩).2.1 rfl rfl,
   (c3_parse_url "postgresql://u:p@h/dbname"
      ⟨"postgresql", "u:p@h", "/dbname", "", "", ""⟩).2.2 "dbname".data
      ⟨some "h", "5432", "dbname", some "u", some "p"⟩ rfl rfl (by decide) rfl⟩

/-- Claim C4: `parse_database_url` fails exactly when `urlparse` or the
`port` accessor raises, and the failure is always a `ValueError` (the
malformed-URL error); URL-shaped strings with missing components do not
fail but silently produce a descriptor with `None` host/username/password
fields (concretely, `postgresql:///db`). -/
theorem c4_parse_url_errors (s : String) :
    (∀ e, pyUrlparse s = .error e → parse_database_url s = .error e) ∧
    (∀ pr e, pyUrlparse s = .ok pr → pyPort pr.netloc = .error e →
      parse_database_url s = .error e) ∧
    (∀ pr p, pyUrlparse s = .ok pr → pyPort pr.netloc = .ok p →
      ∃ r, parse_database_url s = .ok r) ∧
    (∀ e, parse_database_url s = .error e → ∃ m, e = .valueError m) ∧
    parse_database_url "postgresql://h:bad/db" =
      .error (.valueError
        ("Port could not be cast to integer value as " ++ sq ++ "bad" ++ sq)) ∧
    parse_database_url "postgresql:///db" = .ok ⟨none, "5432", "db", none, none⟩ := by
  refine ⟨?_, ?_, ?_, ?_, rfl, rfl⟩
  · intro e h
    simp only [parse_database_url, h]
  · intro pr e h1 h2
    simp only [parse_database_url, h1, h2]
  · intro pr p h1 h2
    exact ⟨{ host := pyHostname pr.netloc, port := pyStr (pyOr p 5432),
             database := String.mk (pr.path.data.dropWhile (· = '/')),
             username := (pyUserinfo pr.netloc).1,
             password := (pyUserinfo pr.netloc).2 },
           by simp only [parse_database_url, h1, h2]⟩
  · intro e _
    cases e
    exact ⟨_, rfl⟩

theorem c4_parse_url_errors_witness :
    parse_database_url "postgresql://[h/db" = .error (.valueError "Invalid IPv6 URL") ∧
    parse_database_url "postgresql://h:bad/db" =
      .error (.valueError
        ("Port could not be cast to integer value as " ++ sq ++ "bad" ++ sq)) ∧
    (∃ r, parse_database_url "postgresql:///db" = .ok r) ∧
    (∃ m, (PyErr.valueError "Invalid IPv6 URL") = .valueError m) :=
  ⟨(c4_parse_url_errors "postgresql://[h/db").1 (.valueError "Invalid IPv6 URL") rfl,
   (c4_parse_url_errors "postgresql://h:bad/db").2.1
      ⟨"postgresql", "h:bad", "/db", "", "", ""⟩
      (.valueError ("Port could not be cast to integer value as " ++ sq ++ "bad" ++ sq))
      rfl rfl,
   (c4_parse_url_errors "postgresql:///db").2.2.1
      ⟨"postgresql", "", "/db", "", "", ""⟩ none rfl rfl,
   (c4_parse_url_errors "postgresql://[h/db").2.2.2.1 (.valueError "Invalid IPv6 URL")
      ((c4_parse_url_errors "postgresql://[h/db").1 (.valueError "Invalid IPv6 URL") rfl)⟩

theorem dumpProcs_append (a b : List Ev) :
    dumpProcs (a ++ b) = dumpProcs a ++ dumpProcs b := by
  simp [dumpProcs]

theorem dumpProcs_nil : dumpProcs [] = [] := rfl

theorem dumpProcs_print_cons (s : String) (l : List Ev) :
    dumpProcs (Ev.print s :: l) = dumpProcs l := by
  simp [dumpProcs, Ev.isDumpProc]

theorem dumpProcs_connect_cons (c : ConnFields) (l : List Ev) :
    dumpProcs (Ev.connect c :: l) = dumpProcs l := by
  simp [dumpProcs, Ev.isDumpProc]

theorem dumpProcs_backup (w : World) (cfg : LocalConfig) :
    dumpProcs (backup_database w cfg none).2 =
      [Ev.proc (dumpArgv cfg
          ("backup_" ++ cfg.database ++ "_" ++ strftimeTs w.now ++ ".dump"))
        (some cfg.password)] := by
  unfold backup_database
  simp only [pyFalsy, reduceIte]
  split <;> (try split) <;> simp [dumpProcs, Ev.isDumpProc, dumpArgv]

theorem backup_file_ne_empty (w : World) (cfg : LocalConfig) (bf : String)
    (h : (backup_database w cfg none).1 = some bf) : ¬ bf = "" := by
  unfold backup_database at h
  simp only [pyFalsy, reduceIte] at h
  cases hrun : w.run (dumpArgv cfg
      ("backup_" ++ cfg.database ++ "_" ++ strftimeTs w.now ++ ".dump")) with
  | exit rc st =>
      rw [hrun] at h
      by_cases hrc : rc = 0
      · simp only [hrc, reduceIte] at h
        simp only [Option.some.injEq] at h
        intro hbf
        have hd : bf.data ≠ [] := by
          rw [← h, strData]
          exact List.append_ne_nil_of_right_ne_nil _ (by decide)
        subst hbf
        exact hd rfl
      · simp [hrc] at h
  | notFound =>
      rw [hrun] at h
      simp at h

/-- Claim C8: a `restore` invocation missing `--backup-file` or
`--target-url` (in particular, one with only `--backup-file`) prints
exactly the error line and does nothing else: no process is started, no
connection is opened, nothing is raised. -/
theorem c8_restore_requires_flags (w : World) (args : Args)
    (ha : args.action = .restore)
    (h : pyFalsy args.backup_file = true ∨ pyFalsy args.target_url = true) :
    runMain w args =
      ([.print "❌ Both --backup-file and --target-url are required for restore"],
       none) ∧
    ∀ argv p, Ev.proc argv p ∉ (runMain w args).1 := by
  constructor
  · rcases h with h | h <;> simp [runMain, ha, h]
  · rcases h with h | h <;> simp [runMain, ha, h]

theorem c8_restore_requires_flags_witness :
    runMain baseW ⟨.restore, some "b.dump", none, none, "5432", none, none, none⟩ =
      ([.print "❌ Both --backup-file and --target-url are required for restore"],
       none) ∧
    ∀ argv p, Ev.proc argv p ∉
      (runMain baseW ⟨.restore, some "b.dump", none, none, "5432", none, none, none⟩).1 :=
  c8_restore_requires_flags baseW
    ⟨.restore, some "b.dump", none, none, "5432", none, none, none⟩ rfl (Or.inr rfl)

/-- Claim C1: in a `migrate` run, if the source connectivity probe fails
the orchestrator aborts ("Cannot connect to local database") and `pg_dump`
is never invoked (so no backup artifact is created); likewise, if the
source probe succeeds but the target probe fails, it aborts before the
backup step and `pg_dump` is never invoked. -/
theorem c1_abort_before_backup (w : World) (args : Args) (u : String)
    (ha : args.action = .migrate) (hu : args.target_url = some u)
    (hne : ¬ u = "") :
    (∀ e, w.connectErr (localConfig w).fields = some e →
      dumpProcs (runMain w args).1 = [] ∧
      Ev.print "❌ Cannot connect to local database" ∈ (runMain w args).1) ∧
    (∀ tc e, w.connectErr (localConfig w).fields = none →
      parse_database_url u = .ok tc →
      w.connectErr tc.fields = some e →
      dumpProcs (runMain w args).1 = [] ∧
      Ev.print "❌ Cannot connect to target database" ∈ (runMain w args).1) := by
  have hfal : pyFalsy (some u) = false := by simpa [pyFalsy] using hne
  constructor
  · intro e h1
    simp [runMain, ha, hu, hfal, test_connection, h1, dumpProcs, Ev.isDumpProc]
  · intro tc e h1 hp h2
    simp [runMain, ha, hu, hfal, test_connection, h1, hp, h2, dumpProcs, Ev.isDumpProc]

def margsU : Args :=
  ⟨.migrate, none, some "postgresql://u:p@h:1234/dbname", none, "5432",
   none, none, none⟩

def wTargetFails : World :=
  { baseW with connectErr := fun c => if c.host = some "h" then some "no route to host" else none }

theorem c1_abort_before_backup_witness :
    (dumpProcs (runMain wConnFails margsU).1 = [] ∧
      Ev.print "❌ Cannot connect to local database" ∈ (runMain wConnFails margsU).1) ∧
    (dumpProcs (runMain wTargetFails margsU).1 = [] ∧
      Ev.print "❌ Cannot connect to target database" ∈ (runMain wTargetFails margsU).1) :=
  ⟨(c1_abort_before_backup wConnFails margsU "postgresql://u:p@h:1234/dbname" rfl rfl
      (by decide)).1 "connection refused" rfl,
   (c1_abort_before_backup wTargetFails margsU "postgresql://u:p@h:1234/dbname" rfl rfl
      (by decide)).2 tcEx "no route to host" rfl rfl rfl⟩

/-- Claim C7: in a `migrate` run where both probes succeed, the Backup
Invoker returns an artifact and the Restore Invoker reports success, the
orchestrator reaches DONE: it prints the success line and reports the
path of the artifact as eligible for manual deletion, never deletes any file
(no `unlink` event), and terminates normally. -/
theorem c7_migrate_done (w : World) (args : Args) (u : String) (tc : UrlConfig)
    (bf : String)
    (ha : args.action = .migrate) (hu : args.target_url = some u) (hne : ¬ u = "")
    (h1 : w.connectErr (localConfig w).fields = none)
    (hp : parse_database_url u = .ok tc)
    (h2 : w.connectErr tc.fields = none)
    (hb : (backup_database w (localConfig w) none).1 = some bf)
    (hr : (restore_database w bf tc).1 = true) :
    Ev.print "✅ Migration completed successfully!" ∈ (runMain w args).1 ∧
    Ev.print ("🗑️ You can now delete the backup file: " ++ bf) ∈ (runMain w args).1 ∧
    (∀ f, Ev.unlink f ∉ (runMain w args).1) ∧
    (runMain w args).2 = none := by
  have hfal : pyFalsy (some u) = false := by simpa [pyFalsy] using hne
  have hbne : pyFalsy (some bf) = false := by
    simpa [pyFalsy] using backup_file_ne_empty w (localConfig w) bf hb
  refine ⟨?_, ?_, ?_, ?_⟩ <;>
    simp [runMain, ha, hu, hfal, test_connection, h1, hp, h2, hb, hbne, hr,
          no_unlink_backup, no_unlink_restore]

theorem c7_migrate_done_witness :
    Ev.print "✅ Migration completed successfully!" ∈ (runMain baseW margsU).1 ∧
    Ev.print ("🗑️ You can now delete the backup file: " ++
      "backup_ecommerce_20240102_030405.dump") ∈ (runMain baseW margsU).1 ∧
    (∀ f, Ev.unlink f ∉ (runMain baseW margsU).1) ∧
    (runMain baseW margsU).2 = none :=
  c7_migrate_done baseW margsU "postgresql://u:p@h:1234/dbname" tcEx
    "backup_ecommerce_20240102_030405.dump" rfl rfl (by decide) rfl rfl rfl rfl rfl

/-- Claim C10: the `migrate` action calls the Backup Invoker with no
explicit file path: `--backup-file`, even when supplied, has no effect at
all on a `migrate` run, and whenever the run reaches the backup step the
single `pg_dump` invocation uses the freshly synthesized
timestamp-derived file name. -/
theorem c10_migrate_ignores_backup_flag (w : World) (args : Args)
    (bf : Option String) (u : String) (tc : UrlConfig)
    (ha : args.action = .migrate) :
    runMain w { args with backup_file := bf } = runMain w args ∧
    (args.target_url = some u → ¬ u = "" →
      w.connectErr (localConfig w).fields = none →
      parse_database_url u = .ok tc →
      w.connectErr tc.fields = none →
      dumpProcs (runMain w args).1 =
        [Ev.proc (dumpArgv (localConfig w)
            ("backup_" ++ (localConfig w).database ++ "_" ++
             strftimeTs w.now ++ ".dump"))
          (some (localConfig w).password)]) := by
  constructor
  · cases args
    cases ha
    rfl
  · intro hu hne h1 hp h2
    have hfal : pyFalsy (some u) = false := by simpa [pyFalsy] using hne
    rcases hbp : backup_database w (localConfig w) none with ⟨bres, btr⟩
    have hdp : dumpProcs btr =
        [Ev.proc (dumpArgv (localConfig w)
            ("backup_" ++ (localConfig w).database ++ "_" ++
             strftimeTs w.now ++ ".dump"))
          (some (localConfig w).password)] := by
      have := dumpProcs_backup w (localConfig w)
      rw [hbp] at this
      exact this
    by_cases hres : pyFalsy bres = true
    · simp [runMain, ha, hu, hfal, test_connection, h1, hp, h2, hbp, hres,
            dumpProcs_append, dumpProcs_print_cons, dumpProcs_connect_cons,
            dumpProcs_nil, hdp]
    · rcases hrp : restore_database w (bres.getD "") tc with ⟨rres, rtr⟩
      have hdr : dumpProcs rtr = [] := by
        have := dumpProcs_restore w (bres.getD "") tc
        rw [hrp] at this
        exact this
      cases rres <;>
        simp [runMain, ha, hu, hfal, test_connection, h1, hp, h2, hbp, hres, hrp,
              dumpProcs_append, dumpProcs_print_cons, dumpProcs_connect_cons,
              dumpProcs_nil, hdp, hdr]

theorem c10_migrate_ignores_backup_flag_witness :
    runMain baseW { margsU with backup_file := some "ignored.dump" } =
      runMain baseW margsU ∧
    dumpProcs (runMain baseW margsU).1 =
      [Ev.proc (dumpArgv (localConfig baseW)
          ("backup_" ++ (localConfig baseW).database ++ "_" ++
           strftimeTs baseW.now ++ ".dump"))
        (some (localConfig baseW).password)] :=
  ⟨(c10_migrate_ignores_backup_flag baseW margsU (some "ignored.dump")
      "postgresql://u:p@h:1234/dbname" tcEx rfl).1,
   (c10_migrate_ignores_backup_flag baseW margsU (some "ignored.dump")
      "postgresql://u:p@h:1234/dbname" tcEx rfl).2 rfl (by decide) rfl rfl rfl⟩

end MigrateDb
